import Mathlib

/-!
Verification of the trading execution core (GMO broker adapter, execution
service, risk manager) against its natural-language specification.

The Python sources are shallowly embedded:
* Python floats are modelled as exact rationals (`ℚ`);
* JSON values are modelled by the inductive `JsonV`;
* network I/O is modelled by oracles: each call site receives the outcome
  the network would have produced (`Except String _` for calls whose
  exceptions are observable to the caller), and each embedded operation
  additionally returns the list of transport-layer calls it performed, so
  that "number of transport invocations" is a provable observable;
* wall-clock timestamps and log formatting details that no claim depends
  on are omitted from the records that carry them.
-/

/-- A JSON value, as produced by `response.json()` / passed to `json.dumps`. -/
inductive JsonV where
  | null : JsonV
  | str (s : String) : JsonV
  | num (q : ℚ) : JsonV
  | bool (b : Bool) : JsonV
  | arr (xs : List JsonV) : JsonV
  | obj (fields : List (String × JsonV)) : JsonV

/-- Python `d.get(key, default)` on a JSON object's field list. -/
def jsonGetD (fields : List (String × JsonV)) (key : String) (dflt : JsonV) : JsonV :=
  match fields.find? (fun kv => kv.1 == key) with
  | some kv => kv.2
  | none => dflt

/-- Python `str(...)` applied to a JSON value (only the string case is
exercised by the claims; the other cases render a canonical form). -/
def pyStrOfJson : JsonV → String
  | .null => "None"
  | .str s => s
  | .num q => toString q
  | .bool b => if b then "True" else "False"
  | .arr _ => "[...]"
  | .obj _ => "\x7b...\x7d"

/-- Python `int(x)` on a float: truncation toward zero. -/
def pyInt (q : ℚ) : Int :=
  if 0 ≤ q then ⌊q⌋ else -⌊-q⌋

/-- Lookup in a `BrokerResult.details` map. -/
def detailsGet (details : List (String × JsonV)) (key : String) : Option JsonV :=
  (details.find? (fun kv => kv.1 == key)).map (·.2)

/-- `s` contains `t` as a substring. -/
def strContains (s t : String) : Prop :=
  ∃ a b : String, s = a ++ t ++ b

/-! ## Data model (src/models.py) -/

/-- models.BrokerResult (timestamp omitted: no claim depends on it). -/
structure BrokerResult where
  status : String
  order_id : Option String := none
  request_id : Option String := none
  details : List (String × JsonV) := []

/-- models.SymbolSpec. -/
structure SymbolSpec where
  symbol : String
  min_order_size : ℚ
  size_step : ℚ

/-- models.MarketSnapshot (timestamp omitted: no claim depends on it). -/
structure MarketSnapshot where
  pair : String
  bid : ℚ
  ask : ℚ
  swap_long_per_day : ℚ := 0
  swap_short_per_day : ℚ := 0
  realized_vol_24h : Option ℚ := none

/-- models.PositionSummary. -/
structure PositionSummary where
  pair : String
  side : String
  amount : ℚ
  avg_entry_price : ℚ
  current_price : ℚ
  unrealized_pnl : ℚ
  leverage : ℚ

/-- models.AiAction; the fields the execution core never reads
(confidence, risk_level, expected_holding_period_days, notes, biases)
are omitted. `units = none` models Python `units=None`. -/
structure AiAction where
  action : String
  units : Option ℚ := none
  target_pair : String
  suggested_leverage : ℚ
  rationale : String := ""
  request_id : Option String := none

/-- The account-state dict returned by `get_account_state`. -/
structure AccountState where
  balance : ℚ
  margin_used : ℚ
  leverage_max : ℚ
  margin_maintain_pct : ℚ

/-! ## GMO broker adapter (src/adapters/gmo_broker.py) -/

/-- The adapter state that the safety interlock reads.
`enable_live_trading` is the flag computed once in `__init__`;
`envNow` models `os.getenv("LIVE_TRADING_ARMED")` at request time
(the variable is re-read inside `_request` before every write). -/
structure GmoClient where
  enable_live_trading : Bool
  envNow : Option String

/-- `__init__`: `enable_live_trading = yaml_live_flag and
(os.getenv("LIVE_TRADING_ARMED", "NO") == "YES")`. -/
def mkGmoClient (yaml_live_flag : Bool) (envInit envNow : Option String) : GmoClient :=
  { enable_live_trading := yaml_live_flag && (envInit.getD "NO" == "YES"),
    envNow := envNow }

inductive HttpMethod where
  | get
  | post
deriving DecidableEq

/-- One transport-layer invocation (an HTTP exchange attempted by `_request`). -/
inductive HttpCall where
  | get
  | post
deriving DecidableEq

/-- What the network produces for one attempt inside `_request`'s retry loop. -/
inductive AttemptOutcome where
  | netError
      -- requests.Timeout or requests.ConnectionError
  | httpError (code : Nat)
      -- response.raise_for_status() raised with this status code
  | envelope (status : Int) (messages : List (String × String)) (data : JsonV)
      -- 2xx response with parsed JSON body {status, messages, data}

/-- How `_request` terminates when it does not return data. -/
inductive ReqError where
  | safetyBlock (msg : String)
  | apiError (code msg : String)
      -- `Exception(f"GMO API Error [{code}]: {msg}")`, re-raised by the
      -- catch-all `except Exception: raise`
  | httpError (code : Nat)
      -- non-retryable HTTP status, re-raised
  | maxRetries
      -- `Exception(f"Max retries exceeded for {endpoint}")`

/-- The retry loop of `GmoBrokerClient._request` (lines 153-199):
`max_retries = 5`; a 2xx envelope with `status ≠ 0` raises an API error
immediately; `status = 0` returns the data; a timeout/connection error is
logged and retried; an HTTP error is retried iff its code is in
[429, 500, 502, 503, 504], else re-raised; after the loop,
"Max retries exceeded" is raised.  The second component counts the HTTP
attempts actually made. -/
def requestLoop (responses : Nat → AttemptOutcome) (attempt : Nat) :
    (fuel : Nat) → Except ReqError JsonV × Nat
  | 0 => (.error .maxRetries, attempt)
  | fuel + 1 =>
    match responses attempt with
    | .envelope st msgs data =>
      if st ≠ 0 then
        let code := match msgs.head? with | some m => m.1 | none => "UNKNOWN"
        let msg := match msgs.head? with | some m => m.2 | none => "Unknown Error"
        (.error (.apiError code msg), attempt + 1)
      else (.ok data, attempt + 1)
    | .netError => requestLoop responses (attempt + 1) fuel
    | .httpError code =>
      if code ∈ [429, 500, 502, 503, 504] then requestLoop responses (attempt + 1) fuel
      else (.error (.httpError code), attempt + 1)

/-- `GmoBrokerClient._request` (lines 127-199): the pre-loop safety guard
for private non-GET calls, then the retry loop with `max_retries = 5`. -/
def gmoRequest (c : GmoClient) (method : HttpMethod) (isPrivate : Bool)
    (responses : Nat → AttemptOutcome) : Except ReqError JsonV × Nat :=
  if method ≠ .get ∧ isPrivate ∧ ¬c.enable_live_trading then
    (.error (.safetyBlock "Safety Block: Attempted Private POST without armed live trading."), 0)
  else if method ≠ .get ∧ isPrivate ∧ c.envNow ≠ some "YES" then
    (.error (.safetyBlock "Safety Block: LIVE_TRADING_ARMED is missing."), 0)
  else
    requestLoop responses 0 5

/-- The safety guard of `_request` applied to one private POST whose
network outcome (after the retry loop) is `oracle`; `str(e)` of the
raised exception is the carried message.  Returns the transport calls
made: none when the guard trips, the POST otherwise. -/
def privatePost (c : GmoClient) (oracle : Except String JsonV) :
    Except String JsonV × List HttpCall :=
  if !c.enable_live_trading then
    (.error "Safety Block: Attempted Private POST without armed live trading.", [])
  else if c.envNow ≠ some "YES" then
    (.error "Safety Block: LIVE_TRADING_ARMED is missing.", [])
  else (oracle, [.post])

/-- `GmoBrokerClient.place_order` (lines 266-312), with the POST's network
outcome supplied by `oracle`.  Order of checks as in the source:
falsy/non-positive units → HOLD; dry-run → DRY_RUN_NOT_SENT before any
network I/O; else the signed POST, whose response `res` yields
`order_id = str(res.get("orderId", ""))` and status EXECUTED, any
exception yielding ERROR. -/
def place_order (c : GmoClient) (oracle : Except String JsonV)
    (decision : AiAction) : BrokerResult × List HttpCall :=
  match decision.units with
  | none => ({ status := "HOLD", details := [("reason", .str "Invalid units")] }, [])
  | some u =>
    if u ≤ 0 then
      ({ status := "HOLD", details := [("reason", .str "Invalid units")] }, [])
    else if !c.enable_live_trading then
      ({ status := "DRY_RUN_NOT_SENT",
         details := [("pair", .str decision.target_pair),
                     ("action", .str decision.action),
                     ("units", .num u),
                     ("msg", .str "Order skipped due to dry-run mode.")] }, [])
    else
      match privatePost c oracle with
      | (.error e, calls) =>
        ({ status := "ERROR", details := [("error", .str e)] }, calls)
      | (.ok res, calls) =>
        match res with
        | .obj fields =>
          ({ status := "EXECUTED",
             order_id := some (pyStrOfJson (jsonGetD fields "orderId" (.str ""))),
             details := [("raw", res)] }, calls)
        | _ =>
          -- `res.get` on a non-dict raises AttributeError, caught by the
          -- surrounding `except Exception` → ERROR
          ({ status := "ERROR",
             details := [("error", .str "AttributeError: res.get")] }, calls)

/-- One entry of the `/v1/openPositions` list, post-parse (the fields the
close loop reads: `positionId`, `side`, `size`). -/
structure PosItem where
  positionId : String
  side : String
  size : String
deriving DecidableEq

/-- The network outcomes served to one `close_position` call:
the pre-close fetch, the per-position close orders (by index), and the
reconciliation fetch. -/
structure CloseEnv where
  fetch1 : Except String (List PosItem)
  closeRes : Nat → Except String JsonV
  fetch2 : Except String (List PosItem)

/-- The JSON entry recorded for one per-position close attempt:
the raw response on success, `{"error": str(e), "positionId": ...}` on
failure (`partial_error` is set in that case). -/
def closeOneResult (c : GmoClient) (oracle : Except String JsonV)
    (pos : PosItem) : (JsonV × Bool) × List HttpCall :=
  match privatePost c oracle with
  | (.ok res, calls) => ((res, false), calls)
  | (.error e, calls) =>
    ((.obj [("error", .str e), ("positionId", .str pos.positionId)], true), calls)

/-- `GmoBrokerClient.close_position` (lines 314-384).  Steps, as in the
source: (1) GET the open-position list (exception → ERROR); (2) empty
list → CLOSED_ALL; (3) dry-run → DRY_RUN_NOT_CLOSED with the remaining
count; (4) armed: one close order per position (failures recorded, loop
continues); (5) reconciliation GET: any remaining position →
PARTIAL_FAILURE, a failed reconciliation is ignored; (6) otherwise
PARTIAL_FAILURE iff some close failed, else CLOSED_ALL. -/
def close_position (c : GmoClient) (env : CloseEnv) (_pair : String) :
    BrokerResult × List HttpCall :=
  match env.fetch1 with
  | .error e =>
    ({ status := "ERROR",
       details := [("error", .str ("Fetch positions failed: " ++ e))] }, [.get])
  | .ok posList =>
    if posList.isEmpty then
      ({ status := "CLOSED_ALL", details := [("msg", .str "No positions to close.")] }, [.get])
    else if !c.enable_live_trading then
      ({ status := "DRY_RUN_NOT_CLOSED",
         details := [("remaining_count", .num posList.length),
                     ("msg", .str ("Found " ++ toString posList.length ++
                       " positions but cannot close in dry-run mode."))] }, [.get])
    else
      let outs := posList.enum.map (fun ip => closeOneResult c (env.closeRes ip.1) ip.2)
      let results : List JsonV := outs.map (·.1.1)
      let partial_error := outs.any (·.1.2)
      let closeCalls := (outs.map (·.2)).flatten
      let calls := [HttpCall.get] ++ closeCalls ++ [HttpCall.get]
      match env.fetch2 with
      | .ok remaining =>
        if 0 < remaining.length then
          ({ status := "PARTIAL_FAILURE",
             details := [("results", .arr results),
                         ("remaining_count", .num remaining.length)] }, calls)
        else if partial_error then
          ({ status := "PARTIAL_FAILURE", details := [("results", .arr results)] }, calls)
        else
          ({ status := "CLOSED_ALL", details := [("results", .arr results)] }, calls)
      | .error _ =>
        -- `except Exception: pass` around the reconciliation read
        if partial_error then
          ({ status := "PARTIAL_FAILURE", details := [("results", .arr results)] }, calls)
        else
          ({ status := "CLOSED_ALL", details := [("results", .arr results)] }, calls)

/-- `GmoBrokerClient.get_account_state` (lines 255-264).
`marginRatioParse` is the outcome of `float(str(data.get("marginRatio", "0")))`:
`some r` when the field parses as a float `r`, `none` when the conversion
raises (the bare `except` then substitutes 9.99 directly, not divided). -/
def get_account_state (equity margin : ℚ) (marginRatioParse : Option ℚ) : AccountState :=
  { balance := equity,
    margin_used := margin,
    leverage_max := 25,
    margin_maintain_pct :=
      match marginRatioParse with
      | some r => r / 100
      | none => (999 : ℚ) / 100 }

/-! ## Risk manager (src/risk_manager.py) -/

/-- The configuration keys `RiskManager.__init__` reads.  Each field is
`none` when the key is omitted from the dict; `max_positions_per_pair`
can additionally be present with value `None` (`some none`). -/
structure RiskConfig where
  max_leverage : Option ℚ := none
  kill_switch_margin_pct : Option ℚ := none
  max_positions_per_pair : Option (Option Int) := none

structure RiskManager where
  max_leverage : ℚ
  kill_switch_margin_pct : ℚ
  max_positions_per_pair : Int
  cooldown_end_time : ℚ
  cooldown_duration_sec : ℚ

/-- `RiskManager.__init__` (lines 15-32): defaults 25.0 / 1.0, and
`max_positions_per_pair = config.get("max_positions_per_pair", 1)`
followed by `if ... is None: ... = 1`. -/
def mkRiskManager (cfg : RiskConfig) : RiskManager :=
  { max_leverage := cfg.max_leverage.getD 25,
    kill_switch_margin_pct := cfg.kill_switch_margin_pct.getD 1,
    max_positions_per_pair :=
      match cfg.max_positions_per_pair with
      | none => 1
      | some none => 1
      | some (some k) => k,
    cooldown_end_time := 0,
    cooldown_duration_sec := 3600 }

/-- `RiskManager.check_account_health` (lines 34-55); `now` models
`time.time()`.  Returns ((healthy, reason), updated state); the numeric
formatting of the reason strings is simplified (no claim reads it beyond
its prefix). -/
def check_account_health (rm : RiskManager) (now : ℚ) (st : AccountState) :
    (Bool × String) × RiskManager :=
  if now < rm.cooldown_end_time then
    ((false, "COOLDOWN: Active until " ++ toString rm.cooldown_end_time), rm)
  else if st.margin_maintain_pct < rm.kill_switch_margin_pct then
    ((false, "CRITICAL: Margin level too low (" ++ toString st.margin_maintain_pct ++ ")"),
     { rm with cooldown_end_time := now + rm.cooldown_duration_sec })
  else
    ((true, "OK"), rm)

/-- `RiskManager._override_to_hold` (lines 86-101). -/
def override_to_hold (a : AiAction) (reason : String) : AiAction :=
  { a with
    action := "HOLD",
    rationale := "[RISK MANAGER OVERRIDE] " ++ reason ++ ". (Original: " ++ a.action ++ ")" }

/-- `RiskManager.validate_action` (lines 57-84). -/
def validate_action (rm : RiskManager) (action : AiAction)
    (positions : List PositionSummary) : AiAction :=
  if action.action = "EXIT" ∨ action.action = "HOLD" then action
  else
    let target_positions := positions.filter (fun p => p.pair == action.target_pair)
    if rm.max_positions_per_pair ≤ (target_positions.length : Int) then
      override_to_hold action
        ("Max positions reached (" ++ toString target_positions.length ++ " >= " ++
          toString rm.max_positions_per_pair ++ ")")
    else if rm.max_leverage < action.suggested_leverage then
      { action with suggested_leverage := rm.max_leverage }
    else action

/-! ## Execution service (src/execution.py) -/

/-- The `ExecutionService` attributes set in `__init__`. -/
structure ExecSvc where
  enable_live : Bool
  fallback_min_lot : ℚ
  account_leverage : ℚ
  live_armed : String

/-- The broker client as seen from `ExecutionService`: the outcome each
call site would observe, `Except String` so that a raising broker (or a
raising mock) is representable; `execute_action` must catch these. -/
structure BrokerOracle where
  get_symbol_specs : String → Except String (Option SymbolSpec)
  get_account_state : Except String AccountState
  get_market_snapshot : String → Except String MarketSnapshot
  place_order : AiAction → Except String BrokerResult
  close_position : String → Option ℚ → Except String BrokerResult

/-- `ExecutionService._get_specs_or_default` (lines 145-160) given the
value `get_symbol_specs` returned: the API values when present, else the
configured fallback, used as both minimum and step. -/
def get_specs_or_default (svc : ExecSvc) (specs : Option SymbolSpec) : ℚ × ℚ :=
  match specs with
  | some s => (s.min_order_size, s.size_step)
  | none => (svc.fallback_min_lot, svc.fallback_min_lot)

/-- `ExecutionService._validate_and_adjust_units` (lines 162-184):
`units = math.floor(raw_units / step) * step`; below the minimum → 0,
else `int(units)`.  An exception from `get_symbol_specs` propagates
(there is no try here). -/
def validate_and_adjust_units (svc : ExecSvc) (B : BrokerOracle)
    (pair : String) (raw_units : ℚ) : Except String Int :=
  match B.get_symbol_specs pair with
  | .error e => .error e
  | .ok specs =>
    let ms := get_specs_or_default svc specs
    let units : ℚ := (⌊raw_units / ms.2⌋ : ℚ) * ms.2
    if units < ms.1 then .ok 0 else .ok (pyInt units)

/-- `ExecutionService._calculate_lot_size` (lines 186-218): the whole body
is inside `try: ... except: return 0`. -/
def calculate_lot_size (svc : ExecSvc) (B : BrokerOracle) (decision : AiAction) : Int :=
  match B.get_account_state with
  | .error _ => 0
  | .ok account =>
    match B.get_market_snapshot decision.target_pair with
    | .error _ => 0
    | .ok snapshot =>
      let price := if decision.action = "BUY" then snapshot.ask else snapshot.bid
      if price ≤ 0 then 0
      else
        let effective_leverage := min decision.suggested_leverage svc.account_leverage
        let investable := account.balance * effective_leverage
        let raw_units := investable / price
        match validate_and_adjust_units svc B decision.target_pair raw_units with
        | .error _ => 0
        | .ok n => n

/-- Python `decision.request_id if decision.request_id else uuid4()`
(lines 62-67): keeps a truthy (non-None, non-empty) id, else installs the
fresh one, mutating the decision. -/
def resolveReqId (freshId : String) (decision : AiAction) : String × AiAction :=
  match decision.request_id with
  | some s =>
    if s = "" then (freshId, { decision with request_id := some freshId })
    else (s, decision)
  | none => (freshId, { decision with request_id := some freshId })

/-- `if not result.request_id: result.request_id = req_id` (lines 90, 98):
replaces a falsy (None or empty) id. -/
def fillReqId (r : BrokerResult) (req_id : String) : BrokerResult :=
  if r.request_id = none ∨ r.request_id = some "" then
    { r with request_id := some req_id }
  else r

/-- The BUY/SELL tail of `execute_action`: positive lots are written back
into the decision and sent to `place_order`; zero lots are a HOLD. -/
def dispatchLots (B : BrokerOracle) (req_id : String) (decision : AiAction)
    (lots : Int) : Except (String × AiAction) (BrokerResult × AiAction) :=
  if 0 < lots then
    match B.place_order { decision with units := some (lots : ℚ) } with
    | .error e => .error (e, { decision with units := some (lots : ℚ) })
    | .ok r => .ok (fillReqId r req_id, { decision with units := some (lots : ℚ) })
  else
    .ok ({ status := "HOLD",
           details := [("reason", .str "Zero lots (below min or insufficient funds)")],
           request_id := some req_id }, decision)

/-- The `try:` body of `ExecutionService.execute_action` (lines 72-107).
An uncaught exception is an `.error` carrying `str(e)` and the decision
as mutated so far (Python mutates it in place). -/
def executeBody (svc : ExecSvc) (B : BrokerOracle) (req_id : String)
    (decision : AiAction) : Except (String × AiAction) (BrokerResult × AiAction) :=
  if decision.action = "BUY" ∨ decision.action = "SELL" then
    match decision.units with
    | some u =>
      if 0 < u then
        -- explicit units: validated against the symbol spec, not recomputed
        match validate_and_adjust_units svc B decision.target_pair u with
        | .error e => .error (e, decision)
        | .ok validated => dispatchLots B req_id decision validated
      else
        dispatchLots B req_id decision (calculate_lot_size svc B decision)
    | none =>
      dispatchLots B req_id decision (calculate_lot_size svc B decision)
  else if decision.action = "EXIT" then
    match B.close_position decision.target_pair decision.units with
    | .error e => .error (e, decision)
    | .ok r => .ok (fillReqId r req_id, decision)
  else if decision.action = "HOLD" then
    .ok ({ status := "HOLD",
           details := [("rationale", .str decision.rationale)],
           request_id := some req_id }, decision)
  else
    .ok ({ status := "HOLD",
           details := [("reason", .str ("Unknown Action " ++ decision.action))],
           request_id := some req_id }, decision)

/-- Python `result.request_id or "unknown"`. -/
def pyOrStr (o : Option String) (dflt : String) : String :=
  match o with
  | some s => if s = "" then dflt else s
  | none => dflt

/-- One audit-log line (`ExecutionService._log_audit`, lines 115-143);
the timestamp is omitted.  Details are JSON values, so the
`json.dumps` serialization in `_log_audit` is total in this model. -/
structure AuditRecord where
  request_id : String
  order_id : Option String
  pair : String
  action : String
  status : String
  units : Option ℚ
  live_config : Bool
  live_armed : String
  details : List (String × JsonV)

def mkAuditRecord (svc : ExecSvc) (decision : AiAction) (result : BrokerResult) :
    AuditRecord :=
  { request_id := pyOrStr result.request_id "unknown",
    order_id := result.order_id,
    pair := decision.target_pair,
    action := decision.action,
    status := result.status,
    units := decision.units,
    live_config := svc.enable_live,
    live_armed := svc.live_armed,
    details := result.details }

/-- The ERROR result built in the `except Exception` handler. -/
def exceptResult (req_id msg : String) : BrokerResult :=
  { status := "ERROR", details := [("error", .str msg)], request_id := some req_id }

/-- `ExecutionService.execute_action` (lines 48-113): request-id
resolution, the `try:` body, and the `except Exception` conversion to an
ERROR result; one audit record is appended in either case.  Returns the
result together with the audit records written during the call. -/
def execute_action (svc : ExecSvc) (B : BrokerOracle) (freshId : String)
    (decision0 : AiAction) : BrokerResult × List AuditRecord :=
  match executeBody svc B (resolveReqId freshId decision0).1 (resolveReqId freshId decision0).2 with
  | .ok rb => (rb.1, [mkAuditRecord svc rb.2 rb.1])
  | .error ed =>
    (exceptResult (resolveReqId freshId decision0).1 ed.1,
     [mkAuditRecord svc ed.2 (exceptResult (resolveReqId freshId decision0).1 ed.1)])

/-! ## Symbol specs (spec-modelled)

`BrokerClient.get_symbol_specs` is declared in src/interfaces.py and
called from src/execution.py, but no adapter in the source tree
implements it. -/

/-- Modelled from the spec: the broker adapter's `get_symbol_specs`
implementation is missing from the source (only the `BrokerClient`
protocol declaration and its caller exist).  Per the spec
(`symbolSpec(symbol) -> SymbolSpec | null`), it is best-effort: the
fetched spec on success, null on any failure, and it never raises. -/
def get_symbol_specs_model (fetched : Except String SymbolSpec) : Option SymbolSpec :=
  match fetched with
  | .ok s => some s
  | .error _ => none

/-! ## Shared lemmas -/

lemma flatten_map_const_singleton {α β : Type} (l : List α) (x : β) :
    (l.map (fun _ => [x])).flatten = List.replicate l.length x := by
  induction l with
  | nil => rfl
  | cons a as ih => simp [List.replicate_succ, ih]

lemma strContains_appendl (s u : String) {t : String} (h : strContains s t) :
    strContains (s ++ u) t := by
  obtain ⟨a, b, rfl⟩ := h
  exact ⟨a, b ++ u, by rw [String.append_assoc, String.append_assoc]⟩

lemma strContains_appendr (s u : String) {t : String} (h : strContains s t) :
    strContains (u ++ s) t := by
  obtain ⟨a, b, rfl⟩ := h
  exact ⟨u ++ a, b, by simp [String.append_assoc]⟩

lemma strContains_of_eq {s t u : String} (h : s = u) (hu : strContains u t) :
    strContains s t := h ▸ hu

/-- `mkGmoClient` is disarmed whenever the environment variable is not
exactly `YES` at initialization. -/
lemma mkGmoClient_disarmed (yaml : Bool) (envInit envNow : Option String)
    (h : envInit ≠ some "YES") :
    (mkGmoClient yaml envInit envNow).enable_live_trading = false := by
  unfold mkGmoClient
  have : (envInit.getD "NO" == "YES") = false := by
    cases envInit with
    | none => rfl
    | some s =>
      have hs : s ≠ "YES" := fun hc => h (by rw [hc])
      simpa [Option.getD] using beq_false_of_ne hs
  simp [this]




/-! ## Claims -/

/-- C1: the spec (and the repository's own test
`test_no_retry_on_post_timeout`) says a timeout on an authenticated POST
makes exactly one transport attempt and propagates; the code's retry loop
in `_request` does not distinguish POST from GET on
timeout/connection errors, so an armed private POST whose every attempt
times out is retried: 5 transport attempts are made and a generic
"Max retries exceeded" error (not the timeout) is raised. -/
theorem c1_post_timeout_is_retried :
    gmoRequest (mkGmoClient true (some "YES") (some "YES")) .post true
      (fun _ => .netError) = (.error .maxRetries, 5) := rfl

/-- Decision used to exercise `place_order` on a response lacking `orderId`. -/
def c3Decision : AiAction :=
  { action := "BUY", units := some 1000, target_pair := "USD_JPY",
    suggested_leverage := 1, rationale := "Test" }

/-- C3: the spec (and the repository's own test `test_error_if_no_order_id`)
says a successfully-parsed order response with no `orderId` yields ERROR
("Missing orderId"), never EXECUTED; the code does
`order_id = str(res.get("orderId", ""))` with no check, so an armed
`place_order` receiving the well-formed response `{}` returns EXECUTED
with an empty order id. -/
theorem c3_missing_order_id_reported_executed :
    (place_order ⟨true, some "YES"⟩ (.ok (.obj [])) c3Decision).1.status = "EXECUTED" ∧
    (place_order ⟨true, some "YES"⟩ (.ok (.obj [])) c3Decision).1.order_id = some "" ∧
    (place_order ⟨true, some "YES"⟩ (.ok (.obj [])) c3Decision).1.status ≠ "ERROR" :=
  ⟨rfl, rfl, by decide⟩

/-- C2 (amended): with the arming signal absent at initialization the
adapter is disarmed, so `place_order` performs zero transport invocations
(returning DRY_RUN_NOT_SENT whenever the units are positive), and
`close_position` performs no state-changing (POST) transport invocation —
it only issues the read-only pre-close position fetch. -/
theorem c2_disarmed_no_writes (yaml : Bool) (envInit envNow : Option String)
    (h : envInit ≠ some "YES") (oracle : Except String JsonV)
    (decision : AiAction) (cenv : CloseEnv) (pair : String) :
    (place_order (mkGmoClient yaml envInit envNow) oracle decision).2 = [] ∧
    (∀ u, decision.units = some u → 0 < u →
      (place_order (mkGmoClient yaml envInit envNow) oracle decision).1.status
        = "DRY_RUN_NOT_SENT") ∧
    HttpCall.post ∉ (close_position (mkGmoClient yaml envInit envNow) cenv pair).2 := by
  have hE := mkGmoClient_disarmed yaml envInit envNow h
  refine ⟨?_, ?_, ?_⟩
  · unfold place_order
    cases hu : decision.units with
    | none => rfl
    | some u =>
      by_cases hle : u ≤ 0
      · simp [hle]
      · simp [hle, hE]
  · intro u hu hpos
    unfold place_order
    rw [hu]
    have hle : ¬ u ≤ 0 := not_le.mpr hpos
    simp [hle, hE]
  · unfold close_position
    cases h1 : cenv.fetch1 with
    | error e => simp
    | ok l =>
      by_cases hl : l.isEmpty
      · simp [hl]
      · simp [hl, hE]

/-- A close environment with one open position and successful network calls. -/
def onePosCloseEnv : CloseEnv :=
  { fetch1 := .ok [{ positionId := "123", side := "BUY", size := "1000" }],
    closeRes := fun _ => .ok .null,
    fetch2 := .ok [] }

theorem c2_disarmed_no_writes_witness :
    ((some "NO" : Option String) ≠ some "YES") ∧
    (place_order (mkGmoClient true (some "NO") (some "NO")) (.ok .null) c3Decision).2 = [] ∧
    HttpCall.post ∉
      (close_position (mkGmoClient true (some "NO") (some "NO")) onePosCloseEnv "USD_JPY").2 := by
  have h := c2_disarmed_no_writes true (some "NO") (some "NO") (by decide)
    (.ok .null) c3Decision onePosCloseEnv "USD_JPY"
  exact ⟨by decide, h.1, h.2.2⟩

/-- C2 (counterexample): the claim as stated says a disarmed
`close_position` performs zero transport invocations; with the arming
signal absent (yaml flag true, env unset) and one open position, the
pre-close fetch is one transport invocation through `_request`. -/
theorem c2_counterexample_close_fetches :
    (close_position (mkGmoClient true none none) onePosCloseEnv "USD_JPY").2 = [HttpCall.get] ∧
    (close_position (mkGmoClient true none none) onePosCloseEnv "USD_JPY").2 ≠ [] := by
  have h1 : (close_position (mkGmoClient true none none) onePosCloseEnv "USD_JPY").2
      = [HttpCall.get] := rfl
  exact ⟨h1, by rw [h1]; decide⟩

/-- C5: a disarmed `close_position` whose pre-close fetch reports a
non-empty list of n positions returns DRY_RUN_NOT_CLOSED carrying
`remaining_count = n` in the details — never CLOSED_ALL. -/
theorem c5_disarmed_close_dry_run (c : GmoClient) (env : CloseEnv) (pair : String)
    (l : List PosItem) (hlive : c.enable_live_trading = false)
    (h1 : env.fetch1 = .ok l) (hl : l ≠ []) :
    (close_position c env pair).1.status = "DRY_RUN_NOT_CLOSED" ∧
    detailsGet (close_position c env pair).1.details "remaining_count"
      = some (.num l.length) ∧
    (close_position c env pair).1.status ≠ "CLOSED_ALL" := by
  have hne : l.isEmpty = false := by
    cases l with
    | nil => exact absurd rfl hl
    | cons a as => rfl
  unfold close_position
  rw [h1]
  refine ⟨?_, ?_, ?_⟩
  · simp [hne, hlive]
  · simp [hne, hlive, detailsGet]
  · simp [hne, hlive]

theorem c5_disarmed_close_dry_run_witness :
    ((mkGmoClient true none none).enable_live_trading = false) ∧
    (onePosCloseEnv.fetch1 = .ok [{ positionId := "123", side := "BUY", size := "1000" }]) ∧
    (close_position (mkGmoClient true none none) onePosCloseEnv "USD_JPY").1.status
      = "DRY_RUN_NOT_CLOSED" ∧
    detailsGet (close_position (mkGmoClient true none none) onePosCloseEnv "USD_JPY").1.details
      "remaining_count" = some (.num 1) := by
  have h := c5_disarmed_close_dry_run (mkGmoClient true none none) onePosCloseEnv "USD_JPY"
    [{ positionId := "123", side := "BUY", size := "1000" }] rfl rfl (by decide)
  exact ⟨rfl, rfl, h.1, h.2.1⟩

lemma closeOneResult_calls (c : GmoClient) (oracle : Except String JsonV) (pos : PosItem)
    (hlive : c.enable_live_trading = true) (harm : c.envNow = some "YES") :
    (closeOneResult c oracle pos).2 = [HttpCall.post] := by
  unfold closeOneResult privatePost
  cases oracle with
  | ok res => simp [hlive, harm]
  | error e => simp [hlive, harm]

/-- C4: an armed `close_position` that issues closing orders performs
exactly one reconciliation fetch afterwards (the trace is the pre-close
GET, one POST per position, one final GET), and whenever that
reconciliation read reports a non-empty remaining list the status is
PARTIAL_FAILURE carrying the remaining count — for every per-position
outcome, including all-successful closes. -/
theorem c4_reconciliation_authoritative (c : GmoClient) (env : CloseEnv) (pair : String)
    (l r : List PosItem)
    (hlive : c.enable_live_trading = true) (harm : c.envNow = some "YES")
    (h1 : env.fetch1 = .ok l) (hl : l ≠ [])
    (h2 : env.fetch2 = .ok r) (hr : r ≠ []) :
    (close_position c env pair).1.status = "PARTIAL_FAILURE" ∧
    detailsGet (close_position c env pair).1.details "remaining_count"
      = some (.num r.length) ∧
    (close_position c env pair).2
      = [HttpCall.get] ++ List.replicate l.length HttpCall.post ++ [HttpCall.get] := by
  have hne : l.isEmpty = false := by
    cases l with
    | nil => exact absurd rfl hl
    | cons a as => rfl
  have hrlen : 0 < r.length := List.length_pos.mpr hr
  have hcalls : (l.enum.map (fun ip => closeOneResult c (env.closeRes ip.1) ip.2)).map (·.2)
      = l.enum.map (fun _ => [HttpCall.post]) := by
    rw [List.map_map]
    exact List.map_congr_left (fun ip _ => closeOneResult_calls c (env.closeRes ip.1) ip.2 hlive harm)
  unfold close_position
  rw [h1]
  refine ⟨?_, ?_, ?_⟩
  · simp [hne, hlive, h2, hrlen]
  · simp [hne, hlive, h2, hrlen, detailsGet]
  · simp only [hne, hlive, h2]
    simp only [Bool.not_true, if_false, Bool.false_eq_true, if_true, hrlen, if_pos hrlen]
    rw [hcalls, flatten_map_const_singleton, List.enum_length]

/-- Armed close scenario: one position closed "successfully", but the
reconciliation fetch still reports one remaining position. -/
def staleCloseEnv : CloseEnv :=
  { fetch1 := .ok [{ positionId := "123", side := "BUY", size := "1000" }],
    closeRes := fun _ => .ok (.obj [("status", .num 0)]),
    fetch2 := .ok [{ positionId := "123", side := "BUY", size := "1000" }] }

theorem c4_reconciliation_authoritative_witness :
    (close_position ⟨true, some "YES"⟩ staleCloseEnv "USD_JPY").1.status
      = "PARTIAL_FAILURE" ∧
    detailsGet (close_position ⟨true, some "YES"⟩ staleCloseEnv "USD_JPY").1.details
      "remaining_count" = some (.num 1) ∧
    (close_position ⟨true, some "YES"⟩ staleCloseEnv "USD_JPY").2
      = [HttpCall.get, HttpCall.post, HttpCall.get] := by
  have h := c4_reconciliation_authoritative ⟨true, some "YES"⟩ staleCloseEnv "USD_JPY"
    [{ positionId := "123", side := "BUY", size := "1000" }]
    [{ positionId := "123", side := "BUY", size := "1000" }]
    rfl rfl rfl (by decide) rfl (by decide)
  exact ⟨h.1, h.2.1, by rw [h.2.2]; rfl⟩

lemma fillReqId_some_ne (r : BrokerResult) (req_id : String) (h : req_id ≠ "") :
    ∃ s, (fillReqId r req_id).request_id = some s ∧ s ≠ "" := by
  unfold fillReqId
  cases hr : r.request_id with
  | none => simp [hr]; exact h
  | some s =>
    by_cases hs : s = ""
    · subst hs
      simp [hr]
      exact h
    · simp [hr, hs]

lemma resolveReqId_ne (freshId : String) (d : AiAction) (h : freshId ≠ "") :
    (resolveReqId freshId d).1 ≠ "" := by
  unfold resolveReqId
  cases hr : d.request_id with
  | none => simpa using h
  | some s =>
    by_cases hs : s = ""
    · simp [hs]; exact h
    · simp [hs]


lemma dispatchLots_ok_request_id (B : BrokerOracle) (req_id : String) (d : AiAction)
    (lots : Int) (r : BrokerResult) (d' : AiAction) (h : req_id ≠ "")
    (hok : dispatchLots B req_id d lots = .ok (r, d')) :
    ∃ s, r.request_id = some s ∧ s ≠ "" := by
  unfold dispatchLots at hok
  split at hok
  · split at hok
    · exact absurd hok (by simp)
    · simp only [Except.ok.injEq, Prod.mk.injEq] at hok
      obtain ⟨h1, -⟩ := hok
      rw [← h1]
      exact fillReqId_some_ne _ req_id h
  · simp only [Except.ok.injEq, Prod.mk.injEq] at hok
    obtain ⟨h1, -⟩ := hok
    exact ⟨req_id, by rw [← h1], h⟩

lemma executeBody_ok_request_id (svc : ExecSvc) (B : BrokerOracle) (req_id : String)
    (d : AiAction) (r : BrokerResult) (d' : AiAction) (h : req_id ≠ "")
    (hok : executeBody svc B req_id d = .ok (r, d')) :
    ∃ s, r.request_id = some s ∧ s ≠ "" := by
  unfold executeBody at hok
  split at hok
  · split at hok
    · split at hok
      · split at hok
        · exact absurd hok (by simp)
        · exact dispatchLots_ok_request_id B req_id d _ r d' h hok
      · exact dispatchLots_ok_request_id B req_id d _ r d' h hok
    · exact dispatchLots_ok_request_id B req_id d _ r d' h hok
  · split at hok
    · split at hok
      · exact absurd hok (by simp)
      · simp only [Except.ok.injEq, Prod.mk.injEq] at hok
        obtain ⟨h1, -⟩ := hok
        rw [← h1]
        exact fillReqId_some_ne _ req_id h
    · split at hok
      · simp only [Except.ok.injEq, Prod.mk.injEq] at hok
        obtain ⟨h1, -⟩ := hok
        exact ⟨req_id, by rw [← h1], h⟩
      · simp only [Except.ok.injEq, Prod.mk.injEq] at hok
        obtain ⟨h1, -⟩ := hok
        exact ⟨req_id, by rw [← h1], h⟩


/-- C6: `execute_action` always returns a `BrokerResult` (exceptions from
sizing or the broker are converted into a status-ERROR result carrying the
exception message) and writes exactly one audit record, whose
`request_id` equals the `request_id` of the returned result. -/
theorem c6_execute_one_audit_no_raise (svc : ExecSvc) (B : BrokerOracle)
    (freshId : String) (d : AiAction) (h : freshId ≠ "") :
    ∃ rec : AuditRecord,
      (execute_action svc B freshId d).2 = [rec] ∧
      (execute_action svc B freshId d).1.request_id = some rec.request_id ∧
      (∀ e d',
        executeBody svc B (resolveReqId freshId d).1 (resolveReqId freshId d).2
          = .error (e, d') →
        (execute_action svc B freshId d).1.status = "ERROR" ∧
        (execute_action svc B freshId d).1.details = [("error", JsonV.str e)]) := by
  have hreq := resolveReqId_ne freshId d h
  unfold execute_action
  cases hb : executeBody svc B (resolveReqId freshId d).1 (resolveReqId freshId d).2 with
  | ok rb =>
    obtain ⟨s, hs, hsne⟩ := executeBody_ok_request_id svc B
      (resolveReqId freshId d).1 (resolveReqId freshId d).2 rb.1 rb.2 hreq (by rw [hb])
    refine ⟨mkAuditRecord svc rb.2 rb.1, rfl, ?_, ?_⟩
    · simp [mkAuditRecord, pyOrStr, hs, hsne]
    · intro e d' he
      exact absurd he (by simp)
  | error ed =>
    refine ⟨_, rfl, ?_, ?_⟩
    · simp [mkAuditRecord, pyOrStr, exceptResult, hreq]
    · intro e d' he
      simp only [Except.error.injEq] at he
      exact ⟨rfl, by subst he; rfl⟩

/-- Broker oracle whose close call raises, for exercising the exception
path of `execute_action`. -/
def raisingBroker : BrokerOracle :=
  { get_symbol_specs := fun _ => .ok none,
    get_account_state := .ok
      { balance := 1000000, margin_used := 0, leverage_max := 25, margin_maintain_pct := 2 },
    get_market_snapshot := fun p => .ok { pair := p, bid := 150, ask := 150 },
    place_order := fun _ => .error "Mock Timeout",
    close_position := fun _ _ => .error "Mock Timeout" }

def svcDry : ExecSvc :=
  { enable_live := false, fallback_min_lot := 1000, account_leverage := 25, live_armed := "NO" }

def exitDecision : AiAction :=
  { action := "EXIT", target_pair := "USD_JPY", suggested_leverage := 1, rationale := "exit" }

theorem c6_execute_one_audit_no_raise_witness :
    ∃ rec : AuditRecord,
      (execute_action svcDry raisingBroker "req-001" exitDecision).2 = [rec] ∧
      (execute_action svcDry raisingBroker "req-001" exitDecision).1.request_id
        = some rec.request_id ∧
      (execute_action svcDry raisingBroker "req-001" exitDecision).1.status = "ERROR" := by
  obtain ⟨rec, h1, h2, h3⟩ :=
    c6_execute_one_audit_no_raise svcDry raisingBroker "req-001" exitDecision (by decide)
  exact ⟨rec, h1, h2, (h3 "Mock Timeout" _ rfl).1⟩

/-- C7: when a BUY/SELL decision carries no explicit units, the computed
size is `floor((balance * min(suggestedLeverage, accountMaxLeverage) /
referencePrice) / sizeStep) * sizeStep` with the ask as reference for BUY
and the bid for SELL, 0 when that falls below the minimum order size; and
a zero size makes `execute_action` return a HOLD ("Zero lots") outcome. -/
theorem c7_lot_sizing (svc : ExecSvc) (B : BrokerOracle) (d : AiAction)
    (acct : AccountState) (snap : MarketSnapshot) (sp : SymbolSpec) (freshId : String)
    (hu : d.units = none)
    (hact : d.action = "BUY" ∨ d.action = "SELL")
    (hacct : B.get_account_state = .ok acct)
    (hsnap : B.get_market_snapshot d.target_pair = .ok snap)
    (hspec : B.get_symbol_specs d.target_pair = .ok (some sp))
    (hprice : 0 < (if d.action = "BUY" then snap.ask else snap.bid)) :
    (calculate_lot_size svc B d =
      if ((⌊acct.balance * min d.suggested_leverage svc.account_leverage /
            (if d.action = "BUY" then snap.ask else snap.bid) / sp.size_step⌋ : ℚ) * sp.size_step)
          < sp.min_order_size
      then 0
      else pyInt ((⌊acct.balance * min d.suggested_leverage svc.account_leverage /
            (if d.action = "BUY" then snap.ask else snap.bid) / sp.size_step⌋ : ℚ) * sp.size_step)) ∧
    (calculate_lot_size svc B d = 0 →
      (execute_action svc B freshId d).1.status = "HOLD" ∧
      detailsGet (execute_action svc B freshId d).1.details "reason"
        = some (.str "Zero lots (below min or insufficient funds)")) := by
  constructor
  · simp only [calculate_lot_size, validate_and_adjust_units, get_specs_or_default,
      hacct, hsnap, hspec]
    rw [if_neg (not_le.mpr hprice)]
    by_cases hmin : (⌊acct.balance * min d.suggested_leverage svc.account_leverage /
        (if d.action = "BUY" then snap.ask else snap.bid) / sp.size_step⌋ : ℚ) * sp.size_step
        < sp.min_order_size
    · simp [hmin]
    · simp [hmin]
  · intro hzero
    have hstat : executeBody svc B (resolveReqId freshId d).1 (resolveReqId freshId d).2
        = .ok ({ status := "HOLD",
                 details := [("reason", .str "Zero lots (below min or insufficient funds)")],
                 request_id := some (resolveReqId freshId d).1 },
               (resolveReqId freshId d).2) := by
      have hu2 : (resolveReqId freshId d).2.units = none := by
        unfold resolveReqId
        cases hr : d.request_id with
        | none => simpa using hu
        | some s =>
          by_cases hs : s = ""
          · simp [hs, hu]
          · simp [hs, hu]
      have hact2 : (resolveReqId freshId d).2.action = d.action := by
        unfold resolveReqId
        cases hr : d.request_id with
        | none => rfl
        | some s =>
          by_cases hs : s = ""
          · simp [hs]
          · simp [hs]
      have hcalc : calculate_lot_size svc B (resolveReqId freshId d).2
          = calculate_lot_size svc B d := by
        unfold resolveReqId
        cases hr : d.request_id with
        | none => unfold calculate_lot_size validate_and_adjust_units; rfl
        | some s =>
          by_cases hs : s = ""
          · simp only [hs, if_pos rfl]
            unfold calculate_lot_size validate_and_adjust_units
            rfl
          · simp [hs]
      unfold executeBody
      rw [if_pos (by rw [hact2]; exact hact)]
      rw [hu2, hcalc, hzero]
      unfold dispatchLots
      rw [if_neg (by decide)]
    unfold execute_action
    rw [hstat]
    exact ⟨rfl, rfl⟩

/-- Account snapshot used by the sizing examples. -/
def acctMillion : AccountState :=
  { balance := 1000000, margin_used := 0, leverage_max := 25, margin_maintain_pct := 2 }

def snapAt150 : MarketSnapshot := { pair := "USD_JPY", bid := 150, ask := 150 }

def snapAt15005 : MarketSnapshot := { pair := "USD_JPY", bid := 150, ask := 15005/100 }

def spStep1000 : SymbolSpec := { symbol := "USD_JPY", min_order_size := 1000, size_step := 1000 }

def spMin10000 : SymbolSpec := { symbol := "USD_JPY", min_order_size := 10000, size_step := 10 }

def brokerSized (snap : MarketSnapshot) (sp : SymbolSpec) : BrokerOracle :=
  { get_symbol_specs := fun _ => .ok (some sp),
    get_account_state := .ok acctMillion,
    get_market_snapshot := fun _ => .ok snap,
    place_order := fun _ => .ok { status := "EXECUTED", order_id := some "OID-1" },
    close_position := fun _ _ => .ok { status := "CLOSED_ALL" } }

def buyLev2 : AiAction :=
  { action := "BUY", target_pair := "USD_JPY", suggested_leverage := 2, rationale := "t" }

def buyLev1 : AiAction :=
  { action := "BUY", target_pair := "USD_JPY", suggested_leverage := 1, rationale := "t" }

theorem c7_lot_sizing_witness :
    calculate_lot_size svcDry (brokerSized snapAt150 spStep1000) buyLev2 = 13000 ∧
    calculate_lot_size svcDry (brokerSized snapAt15005 spMin10000) buyLev1 = 0 ∧
    (execute_action svcDry (brokerSized snapAt15005 spMin10000) "req-w7" buyLev1).1.status
      = "HOLD" := by
  have h1 := c7_lot_sizing svcDry (brokerSized snapAt150 spStep1000) buyLev2
    acctMillion snapAt150 spStep1000 "req-w7" rfl (Or.inl rfl) rfl rfl rfl
    (by norm_num [buyLev2, snapAt150])
  have h2 := c7_lot_sizing svcDry (brokerSized snapAt15005 spMin10000) buyLev1
    acctMillion snapAt15005 spMin10000 "req-w7" rfl (Or.inl rfl) rfl rfl rfl
    (by norm_num [buyLev1, snapAt15005])
  have e2 : calculate_lot_size svcDry (brokerSized snapAt15005 spMin10000) buyLev1 = 0 := by
    rw [h2.1]
    norm_num [buyLev1, snapAt15005, spMin10000, acctMillion, svcDry, Int.floor_eq_iff]
  refine ⟨?_, e2, (h2.2 e2).1⟩
  rw [h1.1]
  norm_num [buyLev2, snapAt150, spStep1000, acctMillion, svcDry, pyInt, Int.floor_eq_iff]

lemma strContains_in_head (head t a b rest : String) (h : head = a ++ t ++ b) :
    strContains (head ++ rest) t :=
  ⟨a, b ++ rest, by rw [h, String.append_assoc (a ++ t) b rest]⟩

/-- C8: with `max_positions_per_pair` omitted from (or null in) the
configuration, `RiskManager` resolves the per-pair limit to 1, and
`validate_action` on a BUY whose pair already has at least one open
position rewrites it to HOLD with a rationale containing
"RISK MANAGER OVERRIDE", "Max positions reached" and the original action
type. -/
theorem c8_default_limit_and_override (cfg : RiskConfig) (a : AiAction)
    (positions : List PositionSummary)
    (hcfg : cfg.max_positions_per_pair = none ∨ cfg.max_positions_per_pair = some none)
    (ha : a.action = "BUY")
    (hcount : 1 ≤ (positions.filter (fun p => p.pair == a.target_pair)).length) :
    (mkRiskManager cfg).max_positions_per_pair = 1 ∧
    (validate_action (mkRiskManager cfg) a positions).action = "HOLD" ∧
    strContains (validate_action (mkRiskManager cfg) a positions).rationale
      "RISK MANAGER OVERRIDE" ∧
    strContains (validate_action (mkRiskManager cfg) a positions).rationale
      "Max positions reached" ∧
    strContains (validate_action (mkRiskManager cfg) a positions).rationale
      "(Original: BUY)" := by
  have hlim : (mkRiskManager cfg).max_positions_per_pair = 1 := by
    rcases hcfg with hc | hc <;> simp [mkRiskManager, hc]
  have hnotpass : ¬(a.action = "EXIT" ∨ a.action = "HOLD") := by
    rw [ha]; decide
  have hge : (mkRiskManager cfg).max_positions_per_pair
      ≤ ((positions.filter (fun p => p.pair == a.target_pair)).length : Int) := by
    rw [hlim]
    exact_mod_cast hcount
  have hform : validate_action (mkRiskManager cfg) a positions
      = override_to_hold a
          ("Max positions reached ("
            ++ toString (positions.filter (fun p => p.pair == a.target_pair)).length
            ++ " >= " ++ toString (mkRiskManager cfg).max_positions_per_pair ++ ")") := by
    unfold validate_action
    rw [if_neg hnotpass, if_pos hge]
  have hrat : (validate_action (mkRiskManager cfg) a positions).rationale
      = "[RISK MANAGER OVERRIDE] "
        ++ ("Max positions reached ("
          ++ (toString (positions.filter (fun p => p.pair == a.target_pair)).length
            ++ (" >= "
              ++ (toString (mkRiskManager cfg).max_positions_per_pair
                ++ ("). (Original: " ++ (a.action ++ ")")))))) := by
    rw [hform]
    unfold override_to_hold
    simp [String.append_assoc]
  refine ⟨hlim, ?_, ?_, ?_, ?_⟩
  · rw [hform]; rfl
  · refine strContains_of_eq hrat ?_
    exact strContains_in_head _ _ "[" "] " _ (by decide)
  · refine strContains_of_eq hrat ?_
    refine strContains_appendr _ _ ?_
    exact strContains_in_head _ _ "" " (" _ (by decide)
  · refine strContains_of_eq hrat ?_
    refine strContains_appendr _ _ (strContains_appendr _ _ (strContains_appendr _ _
      (strContains_appendr _ _ (strContains_appendr _ _ ?_))))
    rw [ha]
    exact ⟨"). ", "", by decide⟩

def onePosition : PositionSummary :=
  { pair := "USD_JPY", side := "LONG", amount := 10000, avg_entry_price := 150,
    current_price := 1505/10, unrealized_pnl := 5000, leverage := 25 }

theorem c8_default_limit_and_override_witness :
    (mkRiskManager {}).max_positions_per_pair = 1 ∧
    (validate_action (mkRiskManager {}) buyLev1 [onePosition]).action = "HOLD" ∧
    strContains (validate_action (mkRiskManager {}) buyLev1 [onePosition]).rationale
      "RISK MANAGER OVERRIDE" := by
  have h := c8_default_limit_and_override {} buyLev1 [onePosition]
    (Or.inl rfl) rfl (by decide)
  exact ⟨h.1, h.2.1, h.2.2.1⟩

/-- C9: the symbol-spec operation returns the fetched spec or null on
failure (it never raises — it is total into `Option`), and
`_get_specs_or_default` substitutes the configured fallback minimum lot,
as both minimum size and step, exactly for a null result. -/
theorem c9_specs_null_fallback (svc : ExecSvc) (e : String) (s : SymbolSpec) :
    get_symbol_specs_model (.error e) = none ∧
    get_symbol_specs_model (.ok s) = some s ∧
    get_specs_or_default svc none = (svc.fallback_min_lot, svc.fallback_min_lot) ∧
    get_specs_or_default svc (some s) = (s.min_order_size, s.size_step) :=
  ⟨rfl, rfl, rfl, rfl⟩

/-- C10: when the `marginRatio` field cannot be parsed as a float,
`get_account_state` reports `margin_maintain_pct = 9.99`; for any
kill-switch threshold not exceeding 9.99 and outside a cooldown window,
`check_account_health` then reports the account healthy and leaves the
cooldown state untouched, so a malformed margin ratio never trips the
kill switch. -/
theorem c10_malformed_margin_never_kills (rm : RiskManager) (now equity margin : ℚ)
    (hth : rm.kill_switch_margin_pct ≤ 999/100)
    (hcd : rm.cooldown_end_time ≤ now) :
    (get_account_state equity margin none).margin_maintain_pct = 999/100 ∧
    (check_account_health rm now (get_account_state equity margin none)).1.1 = true ∧
    (check_account_health rm now (get_account_state equity margin none)).1.2 = "OK" ∧
    (check_account_health rm now (get_account_state equity margin none)).2 = rm := by
  have h1 : ¬ now < rm.cooldown_end_time := not_lt.mpr hcd
  have h2 : ¬ (get_account_state equity margin none).margin_maintain_pct
      < rm.kill_switch_margin_pct := by
    unfold get_account_state
    exact not_lt.mpr hth
  unfold check_account_health
  rw [if_neg h1, if_neg h2]
  exact ⟨rfl, rfl, rfl, rfl⟩

theorem c10_malformed_margin_never_kills_witness :
    ((mkRiskManager { kill_switch_margin_pct := some (1/2) }).kill_switch_margin_pct
      ≤ 999/100) ∧
    (check_account_health (mkRiskManager { kill_switch_margin_pct := some (1/2) }) 1000
      (get_account_state 1000000 0 none)).1.1 = true := by
  have h := c10_malformed_margin_never_kills
    (mkRiskManager { kill_switch_margin_pct := some (1/2) }) 1000 1000000 0
    (by norm_num [mkRiskManager]) (by norm_num [mkRiskManager])
  exact ⟨by norm_num [mkRiskManager], h.2.1⟩
